import Mathlib

/-!
A shallow embedding of the complaint-intake pipeline of `src/server.ts`
(CivicPulse).  Pure helper functions of the server are translated directly;
store reads (SQLite queries) and external calls (remote vision classifier,
reverse geocoder) become explicit parameters of the embedded functions.
-/

set_option maxRecDepth 4096

/-! ## String utilities

JavaScript string operations used by the server, modelled over Lean
strings.  `strContains s sub` is `s.includes(sub)`; `lowerStr` is
`s.toLowerCase()` (ASCII-faithful); `String.trim` stands for JS `trim()`.
-/

/-- Whether `sub` occurs as a contiguous sublist of the haystack. -/
def listContains : List Char → List Char → Bool
  | [], sub => sub.isEmpty
  | c :: rest, sub => sub.isPrefixOf (c :: rest) || listContains rest sub

/-- JS `s.includes(sub)`: substring containment. -/
def strContains (s sub : String) : Bool :=
  listContains s.data sub.data

/-- JS `s.toLowerCase()` (ASCII-faithful). -/
def lowerStr (s : String) : String :=
  ⟨s.data.map Char.toLower⟩

/-- JS `s.trim()`: strip leading and trailing whitespace. -/
def trimStr (s : String) : String :=
  ⟨((s.data.dropWhile Char.isWhitespace).reverse.dropWhile Char.isWhitespace).reverse⟩

/-- `subs.some(w => text.includes(w))`: any of the words occurs in `text`. -/
def anyInfix (text : String) (subs : List String) : Bool :=
  subs.any (fun w => strContains text w)

/-- JS `Array.prototype.join(" ")`. -/
def joinSpace : List String → String
  | [] => ""
  | [s] => s
  | s :: rest => s ++ " " ++ joinSpace rest

/-! ## Categories and priority -/

/-- The `ISSUE_CATEGORIES` enumeration of `server.ts`. -/
inductive IssueCategory where
  | Garbage
  | Road
  | Water
  | Streetlight
  | Other
deriving DecidableEq, Repr

/-- The string value of an `IssueCategory` as it appears in the source. -/
def IssueCategory.name : IssueCategory → String
  | .Garbage => "Garbage"
  | .Road => "Road"
  | .Water => "Water"
  | .Streetlight => "Streetlight"
  | .Other => "Other"

/-- Model of `normalizeCategory` of `server.ts`: trim, lowercase, then
match one of the four known category names, defaulting to `Other`. -/
def normalizeCategory (value : String) : IssueCategory :=
  let normalized := lowerStr (trimStr value)
  if normalized == "garbage" then .Garbage
  else if normalized == "road" then .Road
  else if normalized == "water" then .Water
  else if normalized == "streetlight" then .Streetlight
  else .Other

/-- The Water high-priority rule of `assignPriority` (the condition of
its first `if`). -/
def waterHighRule (category description : String) : Bool :=
  category == "Water" &&
    (strContains (lowerStr description) "leak" || strContains (lowerStr description) "burst" ||
      strContains (lowerStr description) "overflow")

/-- The Road high-priority rule of `assignPriority` (the condition of its
second `if`). -/
def roadHighRule (category description : String) : Bool :=
  category == "Road" &&
    (strContains (lowerStr description) "accident" || strContains (lowerStr description) "pothole" ||
      strContains (lowerStr description) "big")

/-- The Garbage high-priority rule of `assignPriority` (the condition of
its third `if`). -/
def garbageHighRule (category description : String) : Bool :=
  category == "Garbage" &&
    (strContains (lowerStr description) "overflow" || strContains (lowerStr description) "too much")

/-- The low-priority keyword rule of `assignPriority` (the condition of its
fourth `if`): any of the `lowKeywords` occurs in the description. -/
def lowPriorityFires (description : String) : Bool :=
  ["minor", "small", "request", "info"].any (fun k => strContains (lowerStr description) k)

/-- Model of `assignPriority` of `server.ts`: high-priority
category/keyword rules first, then the low-priority keyword list, else
`"Medium"`. -/
def assignPriority (category description : String) : String :=
  if waterHighRule category description then "High"
  else if roadHighRule category description then "High"
  else if garbageHighRule category description then "High"
  else if lowPriorityFires description then "Low"
  else "Medium"

/-- The disjunction of the three high-priority rules of `assignPriority`. -/
def highPriorityFires (category description : String) : Bool :=
  waterHighRule category description || roadHighRule category description ||
    garbageHighRule category description

/-! ## Text classifier -/

/-- Result of `classifyFromText`. -/
structure TextClassification where
  category : IssueCategory
  confidence : ℚ
deriving DecidableEq, Repr

/-- Model of `classifyFromText` of `server.ts`: keyword alternations per
category at confidence `0.75`; otherwise the submitted category,
normalized, at `0.55`. -/
def classifyFromText (description submittedCategory : String) : TextClassification :=
  let text := lowerStr description
  if anyInfix text ["garbage", "trash", "waste", "dump", "bin"] then ⟨.Garbage, mkRat 3 4⟩
  else if anyInfix text ["pothole", "road", "asphalt", "traffic", "street crack"] then ⟨.Road, mkRat 3 4⟩
  else if anyInfix text ["water", "pipe", "leak", "sewage", "drain", "overflow"] then ⟨.Water, mkRat 3 4⟩
  else if anyInfix text ["streetlight", "street light", "lamp", "dark street", "light pole"] then ⟨.Streetlight, mkRat 3 4⟩
  else ⟨normalizeCategory submittedCategory, mkRat 11 20⟩

/-! ## Spam heuristics -/

/-- ASCII letter (the character class of the regex `[a-zA-Z]`). -/
def isAsciiLetter (c : Char) : Bool :=
  (97 ≤ c.toNat && c.toNat ≤ 122) || (65 ≤ c.toNat && c.toNat ≤ 90)

/-- Matcher over a character list for the repeated-letter regex of
`detectSpamSignals`: some ASCII letter is followed by at least six further
copies of itself. -/
def hasLetterRunAux : List Char → Bool
  | [] => false
  | c :: rest =>
    (isAsciiLetter c && 6 ≤ rest.length && (rest.take 6).all (fun d => d == c)) ||
      hasLetterRunAux rest

/-- Whether a string contains a run of 7 or more identical ASCII letters
(the repeated-character regex of `detectSpamSignals`, whose character
class covers letters only). -/
def hasLetterRun7 (s : String) : Bool :=
  hasLetterRunAux s.data

/-- Spec-side predicate: the string contains a run of 7 or more identical
characters (any characters, letters or not) — the wording of the claim. -/
def hasCharRunAux : List Char → Bool
  | [] => false
  | c :: rest =>
    (6 ≤ rest.length && (rest.take 6).all (fun d => d == c)) || hasCharRunAux rest

/-- Spec-side: a run of 7+ identical characters, of any kind. -/
def hasCharRun7 (s : String) : Bool :=
  hasCharRunAux s.data

/-- Matcher for the regex `(https?:\/\/|www\.)`: the text contains
`http://`, `https://` or `www.`. -/
def hasUrlToken (lower : String) : Bool :=
  strContains lower "http://" || strContains lower "https://" || strContains lower "www."

/-- Matcher for `test\s*test` at the head of the character list: literal
`test`, a (greedy) run of whitespace, then `test` again. -/
def matchTestTestAt (l : List Char) : Bool :=
  "test".data.isPrefixOf l &&
    "test".data.isPrefixOf ((l.drop 4).dropWhile (fun c => c.isWhitespace))

/-- Whether `test\s*test` matches anywhere in the list. -/
def containsTestTest : List Char → Bool
  | [] => false
  | c :: rest => matchTestTestAt (c :: rest) || containsTestTest rest

/-- Matcher for the regex `(test\s*test|asdf|qwerty|dummy)`. -/
def hasTestToken (lower : String) : Bool :=
  containsTestTest lower.data || strContains lower "asdf" ||
    strContains lower "qwerty" || strContains lower "dummy"

/-- The list of reasons accumulated by `detectSpamSignals` of `server.ts`,
in source order.  `repeatedByUser` is the injected result of the store
query counting complaints by the same user with the same (case- and
whitespace-insensitively equal) description in the last 7 days. -/
def spamReasons (description : String) (repeatedByUser : Nat) : List String :=
  let text := trimStr description
  let lower := lowerStr text
  (if text.length < 8 then ["Description is too short."] else []) ++
  (if hasUrlToken lower then ["Description contains promotional links."] else []) ++
  (if hasLetterRun7 lower then ["Description has repeated characters."] else []) ++
  (if hasTestToken lower then ["Description looks like spam/test content."] else []) ++
  (if 2 ≤ repeatedByUser then ["Same description was already submitted repeatedly by this user."] else [])

/-- Result of `detectSpamSignals`. -/
structure SpamResult where
  isSpam : Bool
  reason : String
deriving DecidableEq, Repr

/-- Model of `detectSpamSignals` of `server.ts` (the store read is the
`repeatedByUser` parameter): spam iff any reason fired; reasons joined by
spaces. -/
def detectSpamSignals (description : String) (repeatedByUser : Nat) : SpamResult :=
  let reasons := spamReasons description repeatedByUser
  { isSpam := decide (0 < reasons.length), reason := joinSpace reasons }

/-! ## SHA-256

An executable model of Node's `crypto.createHash("sha256")` as used by
`runImageModeration`: the digest, in lowercase hex, of the UTF-8 bytes of
the input string.  Words are plain `Nat` values kept below `2 ^ 32`.
-/

/-- Truncate to a 32-bit word. -/
def w32 (n : Nat) : Nat := n % 4294967296

/-- Rotate the 32-bit word `x` right by `n` bit positions. -/
def rotr32 (n x : Nat) : Nat :=
  (x >>> n) ||| w32 (x <<< (32 - n))

/-- Bitwise complement of a 32-bit word. -/
def bnot32 (x : Nat) : Nat := 4294967295 - x

/-- SHA-256 choice function. -/
def shaCh (x y z : Nat) : Nat := (x &&& y) ^^^ (bnot32 x &&& z)

/-- SHA-256 majority function. -/
def shaMaj (x y z : Nat) : Nat := (x &&& y) ^^^ (x &&& z) ^^^ (y &&& z)

/-- SHA-256 big sigma 0. -/
def bigSigma0 (x : Nat) : Nat := rotr32 2 x ^^^ rotr32 13 x ^^^ rotr32 22 x

/-- SHA-256 big sigma 1. -/
def bigSigma1 (x : Nat) : Nat := rotr32 6 x ^^^ rotr32 11 x ^^^ rotr32 25 x

/-- SHA-256 small sigma 0. -/
def smallSigma0 (x : Nat) : Nat := rotr32 7 x ^^^ rotr32 18 x ^^^ (x >>> 3)

/-- SHA-256 small sigma 1. -/
def smallSigma1 (x : Nat) : Nat := rotr32 17 x ^^^ rotr32 19 x ^^^ (x >>> 10)

/-- SHA-256 round constants. -/
def sha256K : List Nat :=
  [1116352408, 1899447441, 3049323471, 3921009573, 961987163, 1508970993,
   2453635748, 2870763221, 3624381080, 310598401, 607225278, 1426881987,
   1925078388, 2162078206, 2614888103, 3248222580, 3835390401, 4022224774,
   264347078, 604807628, 770255983, 1249150122, 1555081692, 1996064986,
   2554220882, 2821834349, 2952996808, 3210313671, 3336571891, 3584528711,
   113926993, 338241895, 666307205, 773529912, 1294757372, 1396182291,
   1695183700, 1986661051, 2177026350, 2456956037, 2730485921, 2820302411,
   3259730800, 3345764771, 3516065817, 3600352804, 4094571909, 275423344,
   430227734, 506948616, 659060556, 883997877, 958139571, 1322822218,
   1537002063, 1747873779, 1955562222, 2024104815, 2227730452, 2361852424,
   2428436474, 2756734187, 3204031479, 3329325298]

/-- SHA-256 initial hash value. -/
def sha256H0 : List Nat :=
  [1779033703, 3144134277, 1013904242, 2773480762, 1359893119, 2600822924,
   528734635, 1541459225]

/-- Big-endian 8-byte encoding of a natural number below `2 ^ 64`. -/
def beBytes8 (n : Nat) : List Nat :=
  [7, 6, 5, 4, 3, 2, 1, 0].map (fun i => (n >>> (8 * i)) % 256)

/-- SHA-256 padding: append `0x80`, zeros to 56 mod 64, then the bit length. -/
def sha256pad (msg : List Nat) : List Nat :=
  let L := msg.length
  let k := (120 - ((L + 1) % 64)) % 64
  msg ++ [128] ++ List.replicate k 0 ++ beBytes8 (8 * L)

/-- Group bytes into big-endian 32-bit words. -/
def bytesToWords : List Nat → List Nat
  | a :: b :: c :: d :: rest => (((a * 256 + b) * 256 + c) * 256 + d) :: bytesToWords rest
  | _ => []

/-- Split a byte list into 64-byte blocks (fuel-driven; fuel bounds the
number of blocks). -/
def chunkBlocksAux : Nat → List Nat → List (List Nat)
  | 0, _ => []
  | _, [] => []
  | fuel + 1, a :: rest => ((a :: rest).take 64) :: chunkBlocksAux fuel ((a :: rest).drop 64)

/-- Split a byte list into 64-byte blocks. -/
def chunkBlocks (l : List Nat) : List (List Nat) :=
  chunkBlocksAux l.length l

/-- Append the next word of the SHA-256 message schedule. -/
def scheduleStep (ws : List Nat) : List Nat :=
  let n := ws.length
  ws ++ [w32 (smallSigma1 (ws.getD (n - 2) 0) + ws.getD (n - 7) 0 +
              smallSigma0 (ws.getD (n - 15) 0) + ws.getD (n - 16) 0)]

/-- Iterate `scheduleStep`. -/
def buildSchedule : Nat → List Nat → List Nat
  | 0, ws => ws
  | k + 1, ws => buildSchedule k (scheduleStep ws)

/-- The 64-word message schedule of a 16-word block. -/
def sha256schedule (block : List Nat) : List Nat :=
  buildSchedule 48 block

/-- Working state of the SHA-256 compression loop. -/
structure ShaState where
  a : Nat
  b : Nat
  c : Nat
  d : Nat
  e : Nat
  f : Nat
  g : Nat
  h : Nat
deriving DecidableEq, Repr

/-- One SHA-256 compression round on `(k, w)`. -/
def compressRound (s : ShaState) (kw : Nat × Nat) : ShaState :=
  let t1 := w32 (s.h + bigSigma1 s.e + shaCh s.e s.f s.g + kw.1 + kw.2)
  let t2 := w32 (bigSigma0 s.a + shaMaj s.a s.b s.c)
  { a := w32 (t1 + t2), b := s.a, c := s.b, d := s.c,
    e := w32 (s.d + t1), f := s.e, g := s.f, h := s.g }

/-- Compress one 16-word block into the running hash. -/
def compressBlock (H : List Nat) (block : List Nat) : List Nat :=
  let ws := sha256schedule block
  let init : ShaState :=
    { a := H.getD 0 0, b := H.getD 1 0, c := H.getD 2 0, d := H.getD 3 0,
      e := H.getD 4 0, f := H.getD 5 0, g := H.getD 6 0, h := H.getD 7 0 }
  let s := (sha256K.zip ws).foldl compressRound init
  [w32 (H.getD 0 0 + s.a), w32 (H.getD 1 0 + s.b), w32 (H.getD 2 0 + s.c), w32 (H.getD 3 0 + s.d),
   w32 (H.getD 4 0 + s.e), w32 (H.getD 5 0 + s.f), w32 (H.getD 6 0 + s.g), w32 (H.getD 7 0 + s.h)]

/-- SHA-256 of a byte list, as eight 32-bit words. -/
def sha256words (msg : List Nat) : List Nat :=
  (chunkBlocks (sha256pad msg)).foldl (fun H blk => compressBlock H (bytesToWords blk)) sha256H0

/-- Lowercase hex digit. -/
def hexChar (n : Nat) : Char :=
  if n < 10 then Char.ofNat (48 + n) else Char.ofNat (87 + n)

/-- Eight lowercase hex digits of a 32-bit word, most significant first. -/
def wordHex (w : Nat) : List Char :=
  [7, 6, 5, 4, 3, 2, 1, 0].map (fun i => hexChar ((w >>> (4 * i)) % 16))

/-- UTF-8 encoding of one character. -/
def utf8EncodeChar (c : Char) : List Nat :=
  let n := c.toNat
  if n < 128 then [n]
  else if n < 2048 then [192 + n / 64, 128 + n % 64]
  else if n < 65536 then [224 + n / 4096, 128 + (n / 64) % 64, 128 + n % 64]
  else [240 + n / 262144, 128 + (n / 4096) % 64, 128 + (n / 64) % 64, 128 + n % 64]

/-- UTF-8 bytes of a string. -/
def utf8Bytes (s : String) : List Nat :=
  s.data.foldr (fun c acc => utf8EncodeChar c ++ acc) []

/-- Node `crypto.createHash("sha256").update(s, "utf8").digest("hex")`. -/
def sha256hex (s : String) : String :=
  ⟨(sha256words (utf8Bytes s)).foldr (fun w acc => wordHex w ++ acc) []⟩

example : sha256hex "abc" = "ba7816bf8f01cfea414140de5dae2223b00361a396177a9cb410ff61f20015ad" := by decide
example : sha256hex "QQ" ≠ sha256hex "QQ==" := by decide

/-! ## Base64 (spec-side)

The server never decodes the base64 payload; this standard (RFC 4648,
lenient about padding) decoder is used only to state the spec's notion of
"decoded binary content" for the fingerprint claims.
-/

/-- Value of one base64 alphabet character; `none` for padding and for
characters outside the alphabet (which lenient decoders skip). -/
def b64Val (c : Char) : Option Nat :=
  let n := c.toNat
  if 65 ≤ n && n ≤ 90 then some (n - 65)
  else if 97 ≤ n && n ≤ 122 then some (n - 71)
  else if 48 ≤ n && n ≤ 57 then some (n + 4)
  else if c == '+' then some 62
  else if c == '/' then some 63
  else none

/-- Reassemble 6-bit groups into bytes, truncating a trailing partial byte. -/
def sextetsToBytes : List Nat → List Nat
  | a :: b :: c :: d :: rest =>
    ((a <<< 2) ||| (b >>> 4)) :: (((b % 16) <<< 4) ||| (c >>> 2)) ::
      (((c % 4) <<< 6) ||| d) :: sextetsToBytes rest
  | [a, b] => [(a <<< 2) ||| (b >>> 4)]
  | [a, b, c] => [(a <<< 2) ||| (b >>> 4), ((b % 16) <<< 4) ||| (c >>> 2)]
  | _ => []

/-- Spec-side: the decoded binary content of a base64 payload. -/
def base64DecodeBytes (s : String) : List Nat :=
  sextetsToBytes (s.data.filterMap b64Val)

/-! ## Image data-URL parsing -/

/-- The character class of the mime-type part of the data-URL regex of
`parseImageDataUrl`: letters, digits, dot, plus, hyphen. -/
def isMimeChar (c : Char) : Bool :=
  isAsciiLetter c || (48 ≤ c.toNat && c.toNat ≤ 57) || c == '.' || c == '+' || c == '-'

/-- The character class of the payload part of the data-URL regex of
`parseImageDataUrl`: letters, digits, plus, slash, equals, CR, LF. -/
def isB64Char (c : Char) : Bool :=
  isAsciiLetter c || (48 ≤ c.toNat && c.toNat ≤ 57) ||
    c == '+' || c == '/' || c == '=' || c == '\r' || c == '\n'

/-- A parsed `data:image/...;base64,...` URL. -/
structure ParsedDataUrl where
  mimeType : String
  data : String
deriving DecidableEq, Repr

/-- Model of `parseImageDataUrl` of `server.ts`: trim, match the anchored
data-URL regex, and strip all whitespace from the base64 payload. -/
def parseImageDataUrl (photoUrl : String) : Option ParsedDataUrl :=
  let l := (trimStr photoUrl).data
  if "data:image/".data.isPrefixOf l then
    let rest := l.drop 11
    let mimeTail := rest.takeWhile isMimeChar
    let rest2 := rest.drop mimeTail.length
    if mimeTail.isEmpty then none
    else if ";base64,".data.isPrefixOf rest2 then
      let dataPart := rest2.drop 8
      if dataPart.isEmpty then none
      else if dataPart.all isB64Char then
        some { mimeType := ⟨"image/".data ++ mimeTail⟩,
               data := ⟨dataPart.filter (fun c => !c.isWhitespace)⟩ }
      else none
    else none
  else none

/-! ## Moderation -/

/-- Model of `isResolvedStatus` of `server.ts`. -/
def isResolvedStatus (status : String) : Bool :=
  let value := lowerStr (trimStr status)
  value == "closed" || value == "resolved" || value == "resolved (pending admin)"

/-- The sanitized result of the remote vision classifier
(`GeminiImageScan` in `server.ts`). -/
structure GeminiImageScan where
  isLikelyAiGenerated : Bool
  aiGeneratedReason : String
  isSpam : Bool
  spamReason : String
  problemCategory : IssueCategory
  categoryConfidence : ℚ
deriving DecidableEq, Repr

/-- The sanitization performed by `scanWithGeminiIfAvailable` on a parsed
remote response: category normalized via `normalizeCategory`; confidence
clamped into `[0, 1]` when finite, replaced by `0.6` when the reported
value is missing or not a finite number (`rawConfidence = none`). -/
def mkGeminiScan (rawAi : Bool) (rawAiReason : String) (rawSpam : Bool)
    (rawSpamReason : String) (rawCategory : String) (rawConfidence : Option ℚ) :
    GeminiImageScan :=
  { isLikelyAiGenerated := rawAi
    aiGeneratedReason := rawAiReason
    isSpam := rawSpam
    spamReason := rawSpamReason
    problemCategory := normalizeCategory rawCategory
    categoryConfidence :=
      match rawConfidence with
      | some c => max 0 (min 1 c)
      | none => mkRat 6 10 }

/-- A prior complaint row as returned by the duplicate query
(`SELECT id, status FROM complaints WHERE imageHash = ?`). -/
structure DupRow where
  id : String
  status : String
deriving DecidableEq, Repr

/-- A prior complaint in the store, with its fingerprint column.  The
history list is ordered most recent first (the query orders by
`datetime(createdAt) DESC`). -/
structure PriorRow where
  id : String
  status : String
  imageHash : Option String
deriving DecidableEq, Repr

/-- The duplicate query of `runImageModeration`: the most recent prior
complaint sharing the fingerprint. -/
def mostRecentByHash (history : List PriorRow) (h : String) : Option PriorRow :=
  (history.filter (fun r => r.imageHash == some h)).head?

/-- The `ImageModerationResult` record of `server.ts`. -/
structure ImageModerationResult where
  imageHash : Option String
  isLikelyAiGenerated : Bool
  aiGeneratedReason : String
  isSpam : Bool
  spamReason : String
  isDuplicate : Bool
  duplicateAgainst : Option DupRow
  classifiedCategory : IssueCategory
  classificationConfidence : ℚ
  model : String
deriving DecidableEq, Repr

/-- The content hasher of `runImageModeration`: no fingerprint when the
trimmed photo payload is empty; otherwise the SHA-256 hex digest of the
parsed data-URL payload (its whitespace-stripped base64 text) when the
photo parses, else of the whole trimmed string. -/
def imageHashOf (photoUrl : String) : Option String :=
  let normalizedPhoto := trimStr photoUrl
  if normalizedPhoto == "" then none
  else
    some (sha256hex (match parseImageDataUrl normalizedPhoto with
      | some p => p.data
      | none => normalizedPhoto))

/-- The duplicate detector of `runImageModeration`: the most recent prior
complaint sharing the submission fingerprint, when there is one. -/
def duplicateOf (history : List PriorRow) (photoUrl : String) : Option PriorRow :=
  match imageHashOf photoUrl with
  | some h => mostRecentByHash history h
  | none => none

/-- Model of `runImageModeration` of `server.ts`.  `geminiIfCalled` is the
outcome of the remote scan when one is attempted (`none` models a missing
API key, an unparseable response, or a network failure); the source only
attempts the scan when the photo parses as an image data URL.  `history`
and `repeatedByUser` are the two store reads (duplicate lookup and the
7-day same-description count for the submitting user). -/
def runImageModeration (geminiIfCalled : Option GeminiImageScan)
    (history : List PriorRow) (repeatedByUser : Nat)
    (photoUrl description submittedCategory : String) : ImageModerationResult :=
  let normalizedPhoto := trimStr photoUrl
  let parsedData := parseImageDataUrl normalizedPhoto
  let imageHash : Option String := imageHashOf photoUrl
  let duplicate : Option PriorRow := duplicateOf history photoUrl
  let spamHeuristic := detectSpamSignals description repeatedByUser
  let textClassification := classifyFromText description submittedCategory
  let gemini : Option GeminiImageScan :=
    match parsedData with
    | some _ => geminiIfCalled
    | none => none
  let duplicateIsResolved :=
    match duplicate with
    | some d => isResolvedStatus d.status
    | none => false
  let duplicateSpamReason :=
    match duplicate with
    | some d =>
      if duplicateIsResolved then
        "Same image was previously reported and resolved (Complaint " ++ d.id ++ ")."
      else ""
    | none => ""
  { imageHash := imageHash
    isLikelyAiGenerated := match gemini with | some g => g.isLikelyAiGenerated | none => false
    aiGeneratedReason := match gemini with | some g => g.aiGeneratedReason | none => ""
    isSpam := spamHeuristic.isSpam ||
      (match gemini with | some g => g.isSpam | none => false) || duplicateIsResolved
    spamReason :=
      trimStr (joinSpace (([spamHeuristic.reason,
        (match gemini with | some g => g.spamReason | none => ""),
        duplicateSpamReason]).filter (fun s => !(s == ""))))
    isDuplicate := duplicate.isSome
    duplicateAgainst := match duplicate with | some d => some ⟨d.id, d.status⟩ | none => none
    classifiedCategory := match gemini with | some g => g.problemCategory | none => textClassification.category
    classificationConfidence := match gemini with | some g => g.categoryConfidence | none => textClassification.confidence
    model := match gemini with | some _ => "gemini-2.5-flash" | none => "heuristic" }

example : parseImageDataUrl "data:image/png;base64,QQ==" = some ⟨"image/png", "QQ=="⟩ := by decide
example : parseImageDataUrl "data:image/png;base64,Q\nQ==" = some ⟨"image/png", "QQ=="⟩ := by decide
example : parseImageDataUrl "http://x/y.png" = none := by decide
example : base64DecodeBytes "QQ" = [65] := by decide
example : base64DecodeBytes "QQ==" = [65] := by decide
example : isResolvedStatus "Resolved (Pending Admin)" = true := by decide
example : isResolvedStatus "In Progress" = false := by decide

/-! ## Geocoding, ward and division routing, officer assignment -/

/-- A successful reverse-geocode result (`reverseGeocode` of `server.ts`).
A failed lookup (network error, non-2xx, unparseable payload) is modelled
as `none` wherever an `Option GeocodeResult` is consumed. -/
structure GeocodeResult where
  area : String
  city : String
  state : String
  fullAddress : String
  ward : String
deriving DecidableEq, Repr

/-- The fixed fallback location substituted by the complaint route when
`reverseGeocode` throws. -/
def fallbackLoc : GeocodeResult :=
  { area := "Unknown", city := "Amravati", state := "Maharashtra",
    fullAddress := "Unknown", ward := "Unknown" }

/-- Model of `mapToAmravatiWard` of `server.ts`: four fixed coordinate
rectangles, then the geocoder ward hint (when truthy and not
`"Unknown"`), then the unassigned sentinel. -/
def mapToAmravatiWard (lat lon : ℚ) (fallbackWard : String) : String :=
  if mkRat 20870 1000 ≤ lat ∧ lat ≤ mkRat 20890 1000 ∧ mkRat 77730 1000 ≤ lon ∧ lon ≤ mkRat 77760 1000 then
    "Amravati Ward – Pushpak Colony Zone"
  else if mkRat 20900 1000 ≤ lat ∧ lat ≤ mkRat 20930 1000 ∧ mkRat 77740 1000 ≤ lon ∧ lon ≤ mkRat 77770 1000 then
    "Amravati Ward – Rajapeth Zone"
  else if mkRat 20940 1000 ≤ lat ∧ lat ≤ mkRat 20970 1000 ∧ mkRat 77750 1000 ≤ lon ∧ lon ≤ mkRat 77790 1000 then
    "Amravati Ward – Panchvati Zone"
  else if mkRat 20910 1000 ≤ lat ∧ lat ≤ mkRat 20930 1000 ∧ mkRat 77720 1000 ≤ lon ∧ lon ≤ mkRat 77740 1000 then
    "Amravati Ward – Old City Zone"
  else if fallbackWard ≠ "" ∧ fallbackWard ≠ "Unknown" then
    "Amravati Ward – " ++ fallbackWard
  else
    "Amravati Ward – Unassigned"

/-- Whether `(lat, lon)` lies in one of the four fixed zone rectangles of
`mapToAmravatiWard`. -/
def InAnyZoneRect (lat lon : ℚ) : Prop :=
  (mkRat 20870 1000 ≤ lat ∧ lat ≤ mkRat 20890 1000 ∧ mkRat 77730 1000 ≤ lon ∧ lon ≤ mkRat 77760 1000) ∨
  (mkRat 20900 1000 ≤ lat ∧ lat ≤ mkRat 20930 1000 ∧ mkRat 77740 1000 ≤ lon ∧ lon ≤ mkRat 77770 1000) ∨
  (mkRat 20940 1000 ≤ lat ∧ lat ≤ mkRat 20970 1000 ∧ mkRat 77750 1000 ≤ lon ∧ lon ≤ mkRat 77790 1000) ∨
  (mkRat 20910 1000 ≤ lat ∧ lat ≤ mkRat 20930 1000 ∧ mkRat 77720 1000 ≤ lon ∧ lon ≤ mkRat 77740 1000)

instance (lat lon : ℚ) : Decidable (InAnyZoneRect lat lon) := by
  unfold InAnyZoneRect
  infer_instance

/-- Model of `mapWardToDivision` of `server.ts`: fixed substring rules. -/
def mapWardToDivision (ward : String) : String :=
  if strContains ward "Pushpak Colony" then "Zone-1"
  else if strContains ward "Rajapeth" then "Zone-2"
  else if strContains ward "Panchvati" then "Zone-3"
  else if strContains ward "Old City" then "Zone-4"
  else if strContains ward "Amravati Ward –" then "Zone-Unmapped"
  else "Zone-Unmapped"

/-- An officer row of the `officers` table. -/
structure Officer where
  id : String
  name : String
  email : String
  department : String
  division : String
  ward : String
deriving DecidableEq, Repr

/-- Model of `pickOfficerForWardOrDivision` of `server.ts`: first officer
with an exact ward match, else first with an exact division match, else
none.  The officer directory is passed in store order. -/
def pickOfficerForWardOrDivision (officers : List Officer) (ward division : String) :
    Option Officer :=
  match officers.find? (fun o => o.ward == ward) with
  | some o => some o
  | none => officers.find? (fun o => o.division == division)

/-! ## The complaint submission route -/

/-- The complaint row persisted by `POST /api/complaints` (boolean flags
stand for the 0/1 integer columns). -/
structure Complaint where
  id : String
  userId : String
  category : IssueCategory
  description : String
  photoUrl : String
  latitude : ℚ
  longitude : ℚ
  workerName : Option String
  area : String
  city : String
  state : String
  fullAddress : String
  ward : String
  division : String
  department : String
  assignedOfficerId : Option String
  assignedOfficerName : Option String
  imageHash : Option String
  aiGeneratedFlag : Bool
  spamFlag : Bool
  duplicateFlag : Bool
  classifiedCategory : IssueCategory
  classificationConfidence : ℚ
  priority : String
  status : String
deriving DecidableEq, Repr

/-- A row of the `notifications` table (`ntype` models the `type` column). -/
structure Notification where
  id : String
  complaintId : String
  ntype : String
  message : String
deriving DecidableEq, Repr

/-- The HTTP outcome of `POST /api/complaints` after input validation:
422 authenticity rejection, 409 duplicate conflict, 422 spam rejection,
201 created, or the generic 500 "Failed to create complaint" error. -/
inductive SubmitOutcome where
  | rejectedAiGenerated (reason : String)
  | rejectedDuplicate (dup : DupRow)
  | rejectedSpam (reason : String)
  | created (c : Complaint)
  | insertFailed
deriving DecidableEq, Repr

/-- Environment of one submission: the generated ids, the outcomes of the
external calls, the store contents read, and whether the complaint-row
insert fails. -/
structure SubmitEnv where
  newComplaintId : String
  notifId : String
  gemini : Option GeminiImageScan
  history : List PriorRow
  repeatedByUser : Nat
  geocode : Option GeocodeResult
  officers : List Officer
  insertFails : Bool
deriving Repr

/-- Observable effects of one submission: the HTTP outcome, the
notification rows inserted, the complaint rows inserted, and the
addresses emailed. -/
structure SubmitEffects where
  outcome : SubmitOutcome
  notifications : List Notification
  complaintsInserted : List Complaint
  emailsTo : List String
deriving Repr

/-- The hard-reject duplicate condition of the complaint route:
`moderation.isDuplicate`, a matched row, and its status not resolved. -/
def hardDuplicate (m : ImageModerationResult) : Option DupRow :=
  match m.duplicateAgainst with
  | some d => if m.isDuplicate && !(isResolvedStatus d.status) then some d else none
  | none => none

/-- The moderation result computed by `POST /api/complaints` for one
submission under environment `env`. -/
def moderationOf (env : SubmitEnv) (category description photoUrl : String) :
    ImageModerationResult :=
  runImageModeration env.gemini env.history env.repeatedByUser (trimStr photoUrl) description category

/-- The final category of an accepted submission: the classifier category
when its confidence is at least 0.6, else the normalized citizen-submitted
category (`classifiedCategory` in the route body). -/
def finalCategoryOf (m : ImageModerationResult) (category : String) : IssueCategory :=
  if mkRat 6 10 ≤ m.classificationConfidence then m.classifiedCategory
  else normalizeCategory category

/-- The location used by the route: the geocode result, or the fixed
fallback when the lookup failed. -/
def locOf (env : SubmitEnv) : GeocodeResult :=
  match env.geocode with
  | some l => l
  | none => fallbackLoc

/-- The ward computed by the route. -/
def wardOf (env : SubmitEnv) (lat lon : ℚ) : String :=
  mapToAmravatiWard lat lon (locOf env).ward

/-- The division computed by the route. -/
def divisionOf (env : SubmitEnv) (lat lon : ℚ) : String :=
  mapWardToDivision (wardOf env lat lon)

/-- The officer picked by the route. -/
def officerOf (env : SubmitEnv) (lat lon : ℚ) : Option Officer :=
  pickOfficerForWardOrDivision env.officers (wardOf env lat lon) (divisionOf env lat lon)

/-- The complaint row built and inserted by the accept path of the route. -/
def acceptedComplaint (env : SubmitEnv)
    (userId category description photoUrl : String) (lat lon : ℚ) : Complaint :=
  let m := moderationOf env category description photoUrl
  let classifiedCategory := finalCategoryOf m category
  let loc := locOf env
  let ward := wardOf env lat lon
  let officer := officerOf env lat lon
  { id := env.newComplaintId, userId := userId, category := classifiedCategory,
    description := description, photoUrl := trimStr photoUrl,
    latitude := lat, longitude := lon,
    workerName := officer.map (fun o => o.name),
    area := loc.area, city := loc.city, state := loc.state,
    fullAddress := loc.fullAddress, ward := ward, division := divisionOf env lat lon,
    department := (match officer with | some o => o.department | none => category),
    assignedOfficerId := officer.map (fun o => o.id),
    assignedOfficerName := officer.map (fun o => o.name),
    imageHash := m.imageHash,
    aiGeneratedFlag := m.isLikelyAiGenerated, spamFlag := m.isSpam,
    duplicateFlag := m.isDuplicate, classifiedCategory := classifiedCategory,
    classificationConfidence := m.classificationConfidence,
    priority := assignPriority classifiedCategory.name description,
    status := (match officer with | some _ => "In Progress" | none => "Submitted") }

/-- The ASSIGNED admin notification inserted by `notifyAdminAssignment`
when an officer was auto-assigned (before the complaint insert). -/
def assignedNotifs (env : SubmitEnv)
    (category description photoUrl : String) (lat lon : ℚ) : List Notification :=
  let m := moderationOf env category description photoUrl
  let ward := wardOf env lat lon
  match officerOf env lat lon with
  | some o =>
    [{ id := env.notifId, complaintId := env.newComplaintId, ntype := "ASSIGNED",
       message := "Complaint " ++ env.newComplaintId ++ " auto-assigned to " ++ o.name ++
         " (" ++ (finalCategoryOf m category).name ++ ") in " ++ ward ++ "." }]
  | none => []

/-- The officer addresses emailed by the accept path (best-effort; sent
only when the assigned officer has a non-empty address). -/
def emailsOf (env : SubmitEnv) (lat lon : ℚ) : List String :=
  match officerOf env lat lon with
  | some o => if o.email == "" then [] else [o.email]
  | none => []

/-- Model of the body of `POST /api/complaints` of `server.ts` after the
required-field and location validation: moderation, then the ordered
rejection checks (AI-generated, open-state duplicate, spam), then the
accept path — final category, priority, geocode fallback, ward/division
routing, officer assignment, best-effort officer email, the ASSIGNED
admin notification, and the complaint insert, which fails iff
`env.insertFails`, producing the generic 500 error after the notification
was already inserted. -/
def handleSubmitComplaint (env : SubmitEnv)
    (userId category description photoUrl : String) (lat lon : ℚ) : SubmitEffects :=
  let m := moderationOf env category description photoUrl
  if m.isLikelyAiGenerated then
    { outcome := .rejectedAiGenerated
        (if m.aiGeneratedReason == "" then "Image authenticity check failed." else m.aiGeneratedReason),
      notifications := [], complaintsInserted := [], emailsTo := [] }
  else
    match hardDuplicate m with
    | some d =>
      { outcome := .rejectedDuplicate d, notifications := [], complaintsInserted := [], emailsTo := [] }
    | none =>
      if m.isSpam then
        { outcome := .rejectedSpam
            (if m.spamReason == "" then "Spam signal detected." else m.spamReason),
          notifications := [], complaintsInserted := [], emailsTo := [] }
      else if env.insertFails then
        { outcome := .insertFailed,
          notifications := assignedNotifs env category description photoUrl lat lon,
          complaintsInserted := [], emailsTo := emailsOf env lat lon }
      else
        { outcome := .created (acceptedComplaint env userId category description photoUrl lat lon),
          notifications := assignedNotifs env category description photoUrl lat lon,
          complaintsInserted := [acceptedComplaint env userId category description photoUrl lat lon],
          emailsTo := emailsOf env lat lon }

example : mapToAmravatiWard (mkRat 2088 100) (mkRat 7774 100) "Unknown" = "Amravati Ward – Pushpak Colony Zone" := by decide
example : mapWardToDivision "Amravati Ward – Pushpak Colony Zone" = "Zone-1" := by decide
example : mapToAmravatiWard 0 0 "Rajapeth" = "Amravati Ward – Rajapeth" := by decide
example : mapWardToDivision "Amravati Ward – Rajapeth" = "Zone-2" := by decide
example : mapToAmravatiWard 0 0 "XYZ Suburb" = "Amravati Ward – XYZ Suburb" := by decide
example : mapWardToDivision "Amravati Ward – XYZ Suburb" = "Zone-Unmapped" := by decide

example : assignPriority "Water" "major pipe burst near gate" = "High" := by decide
example : assignPriority "Garbage" "minor smell" = "Low" := by decide
example : assignPriority "Road" "uneven footpath" = "Medium" := by decide
example : (detectSpamSignals "11111111" 0).isSpam = false := by decide
example : (detectSpamSignals "aaaaaaaa" 0).isSpam = true := by decide
example : hasTestToken "test   test" = true := by decide
example : (classifyFromText "big pothole here" "Garbage").category = .Road := by decide

/-! ## Helper lemmas -/

/-- The trimmed character list of `trimStr`, phrased with `rdropWhile`. -/
lemma trimStr_data (s : String) :
    (trimStr s).data =
      List.rdropWhile Char.isWhitespace (List.dropWhile Char.isWhitespace s.data) := rfl

/-- Trimming is idempotent. -/
lemma trimStr_idem (s : String) : trimStr (trimStr s) = trimStr s := by
  have hdrop : ∀ l : List Char,
      List.dropWhile Char.isWhitespace
        (List.rdropWhile Char.isWhitespace (List.dropWhile Char.isWhitespace l)) =
      List.rdropWhile Char.isWhitespace (List.dropWhile Char.isWhitespace l) := by
    intro l
    rw [List.dropWhile_eq_self_iff]
    intro hl hp
    obtain ⟨t, ht⟩ := List.rdropWhile_prefix Char.isWhitespace
      (List.dropWhile Char.isWhitespace l)
    have hlen : 0 < (List.dropWhile Char.isWhitespace l).length := by
      rw [← ht]
      simp only [List.length_append]
      omega
    have hopt : (List.dropWhile Char.isWhitespace l)[0]? =
        (List.rdropWhile Char.isWhitespace (List.dropWhile Char.isWhitespace l))[0]? := by
      conv_lhs => rw [← ht]
      rw [List.getElem?_append, if_pos hl]
    have hget : (List.rdropWhile Char.isWhitespace
        (List.dropWhile Char.isWhitespace l)).get ⟨0, hl⟩ =
        (List.dropWhile Char.isWhitespace l).get ⟨0, hlen⟩ := by
      have h1 := List.getElem?_eq_getElem hl
      have h2 := List.getElem?_eq_getElem hlen
      rw [h1, h2] at hopt
      simpa [List.get_eq_getElem] using hopt.symm
    rw [hget] at hp
    exact List.dropWhile_get_zero_not Char.isWhitespace l hlen hp
  apply String.ext
  rw [trimStr_data, trimStr_data, hdrop, List.rdropWhile_idempotent]

/-- The empty string parses to no image data URL. -/
lemma parseImageDataUrl_empty : parseImageDataUrl "" = none := by decide

/-- The moderation of a submission depends on the photo URL only through
its trimmed form. -/
lemma moderationOf_eq (env : SubmitEnv) (category description photoUrl : String) :
    moderationOf env category description photoUrl =
      runImageModeration env.gemini env.history env.repeatedByUser
        (trimStr photoUrl) description category := rfl

/-- The content hasher depends on the photo URL only through its trimmed
form. -/
lemma imageHashOf_trim (u : String) : imageHashOf (trimStr u) = imageHashOf u := by
  unfold imageHashOf
  rw [trimStr_idem]

/-- The duplicate detector depends on the photo URL only through its
trimmed form. -/
lemma duplicateOf_trim (hist : List PriorRow) (u : String) :
    duplicateOf hist (trimStr u) = duplicateOf hist u := by
  unfold duplicateOf
  rw [imageHashOf_trim]

/-- Unfolding of `runImageModeration` at a parsed photo: internal
double-trimming collapses via `trimStr_idem`. -/
lemma runImageModeration_photo_trim (g : Option GeminiImageScan)
    (hist : List PriorRow) (rep : Nat) (u d c : String) :
    runImageModeration g hist rep (trimStr u) d c = runImageModeration g hist rep u d c := by
  unfold runImageModeration
  rw [trimStr_idem, imageHashOf_trim, duplicateOf_trim]

/-! ## Claim theorems -/

/-- C3: priority assignment is a pure function of the final category and
description: the three documented examples evaluate as stated, and for
every input the high-priority category/keyword rules are checked before
the low-priority keyword rules, with Medium as the default when neither
fires. -/
theorem C3_assign_priority :
    assignPriority "Water" "major pipe burst near gate" = "High" ∧
    assignPriority "Garbage" "minor smell" = "Low" ∧
    assignPriority "Road" "uneven footpath" = "Medium" ∧
    ∀ category description,
      (highPriorityFires category description = true →
        assignPriority category description = "High") ∧
      (highPriorityFires category description = false → lowPriorityFires description = true →
        assignPriority category description = "Low") ∧
      (highPriorityFires category description = false → lowPriorityFires description = false →
        assignPriority category description = "Medium") := by
  refine ⟨by decide, by decide, by decide, fun category description => ⟨?_, ?_, ?_⟩⟩
  · intro h
    simp only [highPriorityFires, Bool.or_eq_true] at h
    simp only [assignPriority]
    rcases h with (h | h) | h <;> simp [h]
  · intro h hl
    simp only [highPriorityFires, Bool.or_eq_false_iff] at h
    simp only [assignPriority, h.1.1, h.1.2, h.2, hl]
    simp
  · intro h hl
    simp only [highPriorityFires, Bool.or_eq_false_iff] at h
    simp only [assignPriority, h.1.1, h.1.2, h.2, hl]
    simp

/-- Witness for C3 at a concrete input with the hypotheses discharged. -/
theorem C3_assign_priority_witness :
    highPriorityFires "Water" "big leak" = true ∧
    assignPriority "Water" "big leak" = "High" :=
  ⟨by decide, (C3_assign_priority.2.2.2 "Water" "big leak").1 (by decide)⟩

/-- C9 counterexample: the description `"11111111"` contains a run of 8
identical characters, yet the spam heuristic does not flag it — the
repeated-character regex of `detectSpamSignals` matches letters only. -/
theorem C9_counterexample :
    hasCharRun7 "11111111" = true ∧ (detectSpamSignals "11111111" 0).isSpam = false := by
  refine ⟨by decide, by decide⟩

/-- C9 amended: for every description whose lowercased trimmed text
contains a run of 7 or more identical ASCII letters, the spam heuristic
flags the submission as spam and records the human-readable
repeated-characters reason. -/
theorem C9_letter_run_spam (description : String) (repeatedByUser : Nat)
    (h : hasLetterRun7 (lowerStr (trimStr description)) = true) :
    (detectSpamSignals description repeatedByUser).isSpam = true ∧
    "Description has repeated characters." ∈ spamReasons description repeatedByUser := by
  have hmem : "Description has repeated characters." ∈ spamReasons description repeatedByUser := by
    simp only [spamReasons, h, if_true]
    simp [List.mem_append]
  refine ⟨?_, hmem⟩
  have hlen : 0 < (spamReasons description repeatedByUser).length :=
    List.length_pos.mpr (List.ne_nil_of_mem hmem)
  simp only [detectSpamSignals]
  exact decide_eq_true hlen

/-- Witness for C9's amended theorem at a concrete input. -/
theorem C9_letter_run_spam_witness :
    hasLetterRun7 (lowerStr (trimStr "aaaaaaaa")) = true ∧
    (detectSpamSignals "aaaaaaaa" 0).isSpam = true ∧
    "Description has repeated characters." ∈ spamReasons "aaaaaaaa" 0 :=
  ⟨by decide, (C9_letter_run_spam "aaaaaaaa" 0 (by decide)).1,
    (C9_letter_run_spam "aaaaaaaa" 0 (by decide)).2⟩

/-- C8 counterexample: at coordinates `(0, 0)` — outside every zone
rectangle — the computed ward and division depend on what the geocoder
returned: hints `"Rajapeth"` and `"Badnera Road"` produce different wards
and different divisions for the same coordinates. -/
theorem C8_counterexample :
    mapToAmravatiWard 0 0 "Rajapeth" ≠ mapToAmravatiWard 0 0 "Badnera Road" ∧
    mapWardToDivision (mapToAmravatiWard 0 0 "Rajapeth") ≠
      mapWardToDivision (mapToAmravatiWard 0 0 "Badnera Road") := by
  refine ⟨by decide, by decide⟩

/-- C8 amended: for coordinates inside one of the fixed zone rectangles,
ward and division are deterministic in the coordinates alone, regardless
of the geocoder ward hint. -/
theorem C8_ward_deterministic_in_zone (lat lon : ℚ) (h1 h2 : String)
    (hz : InAnyZoneRect lat lon) :
    mapToAmravatiWard lat lon h1 = mapToAmravatiWard lat lon h2 ∧
    mapWardToDivision (mapToAmravatiWard lat lon h1) =
      mapWardToDivision (mapToAmravatiWard lat lon h2) := by
  have hw : mapToAmravatiWard lat lon h1 = mapToAmravatiWard lat lon h2 := by
    unfold mapToAmravatiWard
    unfold InAnyZoneRect at hz
    by_cases hc1 : mkRat 20870 1000 ≤ lat ∧ lat ≤ mkRat 20890 1000 ∧
        mkRat 77730 1000 ≤ lon ∧ lon ≤ mkRat 77760 1000
    · rw [if_pos hc1, if_pos hc1]
    rw [if_neg hc1, if_neg hc1]
    by_cases hc2 : mkRat 20900 1000 ≤ lat ∧ lat ≤ mkRat 20930 1000 ∧
        mkRat 77740 1000 ≤ lon ∧ lon ≤ mkRat 77770 1000
    · rw [if_pos hc2, if_pos hc2]
    rw [if_neg hc2, if_neg hc2]
    by_cases hc3 : mkRat 20940 1000 ≤ lat ∧ lat ≤ mkRat 20970 1000 ∧
        mkRat 77750 1000 ≤ lon ∧ lon ≤ mkRat 77790 1000
    · rw [if_pos hc3, if_pos hc3]
    rw [if_neg hc3, if_neg hc3]
    by_cases hc4 : mkRat 20910 1000 ≤ lat ∧ lat ≤ mkRat 20930 1000 ∧
        mkRat 77720 1000 ≤ lon ∧ lon ≤ mkRat 77740 1000
    · rw [if_pos hc4, if_pos hc4]
    exfalso
    rcases hz with h | h | h | h
    exacts [hc1 h, hc2 h, hc3 h, hc4 h]
  exact ⟨hw, by rw [hw]⟩

/-- Witness for C8's amended theorem at concrete in-zone coordinates. -/
theorem C8_ward_deterministic_in_zone_witness :
    InAnyZoneRect (mkRat 2088 100) (mkRat 7774 100) ∧
    mapToAmravatiWard (mkRat 2088 100) (mkRat 7774 100) "A" =
      mapToAmravatiWard (mkRat 2088 100) (mkRat 7774 100) "B" :=
  ⟨by decide,
    (C8_ward_deterministic_in_zone (mkRat 2088 100) (mkRat 7774 100) "A" "B" (by decide)).1⟩

set_option maxHeartbeats 2000000 in
/-- C5 counterexample: the payloads `"QQ"` and `"QQ=="` decode to the same
binary content (the single byte 65), both parse as image data URLs, yet
the two submissions receive different fingerprints — the hasher digests
the base64 text, not the decoded bytes. -/
theorem C5_counterexample :
    parseImageDataUrl "data:image/png;base64,QQ" = some ⟨"image/png", "QQ"⟩ ∧
    parseImageDataUrl "data:image/png;base64,QQ==" = some ⟨"image/png", "QQ=="⟩ ∧
    base64DecodeBytes "QQ" = base64DecodeBytes "QQ==" ∧
    (runImageModeration none [] 0 "data:image/png;base64,QQ" "desc" "Other").imageHash ≠
      (runImageModeration none [] 0 "data:image/png;base64,QQ==" "desc" "Other").imageHash := by
  refine ⟨by decide, by decide, by decide, by decide⟩

/-- C5 amended: the content hasher returns no fingerprint when the trimmed
photo payload is empty; otherwise it returns the deterministic SHA-256
digest of the parsed data URL's whitespace-stripped base64 text (not of
its decoded binary content), so two submissions agree in fingerprint
whenever their data URLs carry the same stripped base64 text — regardless
of mime type or embedded line breaks — and `runImageModeration` reports
exactly this fingerprint. -/
theorem C5_fingerprint :
    (∀ u : String, trimStr u = "" → imageHashOf u = none) ∧
    (∀ (u : String) (p : ParsedDataUrl), parseImageDataUrl (trimStr u) = some p →
      imageHashOf u = some (sha256hex p.data)) ∧
    (∀ (u1 u2 : String) (p1 p2 : ParsedDataUrl),
      parseImageDataUrl (trimStr u1) = some p1 → parseImageDataUrl (trimStr u2) = some p2 →
      p1.data = p2.data → imageHashOf u1 = imageHashOf u2) ∧
    (∀ (g : Option GeminiImageScan) (hist : List PriorRow) (rep : Nat) (u d c : String),
      (runImageModeration g hist rep u d c).imageHash = imageHashOf u) := by
  have h2 : ∀ (u : String) (p : ParsedDataUrl), parseImageDataUrl (trimStr u) = some p →
      imageHashOf u = some (sha256hex p.data) := by
    intro u p hp
    have hne : trimStr u ≠ "" := by
      intro he
      rw [he, parseImageDataUrl_empty] at hp
      exact Option.noConfusion hp
    simp [imageHashOf, hne, hp]
  refine ⟨?_, h2, ?_, ?_⟩
  · intro u hu
    simp [imageHashOf, hu]
  · intro u1 u2 p1 p2 hp1 hp2 hdata
    rw [h2 u1 p1 hp1, h2 u2 p2 hp2, hdata]
  · intro g hist rep u d c
    rfl

/-- Witness for C5's amended theorem: an empty payload gets no
fingerprint, and two data URLs with different mime types and different
embedded whitespace but the same stripped base64 text share one. -/
theorem C5_fingerprint_witness :
    trimStr "  " = "" ∧ imageHashOf "  " = none ∧
    parseImageDataUrl (trimStr "data:image/png;base64,AA\nAA") = some ⟨"image/png", "AAAA"⟩ ∧
    parseImageDataUrl (trimStr "data:image/jpeg;base64,AAAA") = some ⟨"image/jpeg", "AAAA"⟩ ∧
    imageHashOf "data:image/png;base64,AA\nAA" = imageHashOf "data:image/jpeg;base64,AAAA" :=
  ⟨by decide, C5_fingerprint.1 "  " (by decide), by decide, by decide,
    C5_fingerprint.2.2.1 "data:image/png;base64,AA\nAA" "data:image/jpeg;base64,AAAA"
      ⟨"image/png", "AAAA"⟩ ⟨"image/jpeg", "AAAA"⟩ (by decide) (by decide) (by decide)⟩

/-- When every fingerprint match in the history is resolved, the most
recent match exists and is resolved. -/
lemma mostRecentByHash_resolved (hist : List PriorRow) (hash : String)
    (hall : ∀ r ∈ hist, r.imageHash = some hash → isResolvedStatus r.status = true)
    (hex : ∃ r ∈ hist, r.imageHash = some hash) :
    ∃ r0, mostRecentByHash hist hash = some r0 ∧ isResolvedStatus r0.status = true := by
  unfold mostRecentByHash
  obtain ⟨r, hr, hrh⟩ := hex
  have hfil : r ∈ hist.filter (fun x => x.imageHash == some hash) := by
    rw [List.mem_filter]
    exact ⟨hr, by simp [hrh]⟩
  cases hl : hist.filter (fun x => x.imageHash == some hash) with
  | nil => exact absurd (hl ▸ hfil) (List.not_mem_nil r)
  | cons a t =>
    refine ⟨a, by simp, ?_⟩
    have ha : a ∈ hist.filter (fun x => x.imageHash == some hash) := by
      rw [hl]
      exact List.mem_cons_self a t
    rw [List.mem_filter] at ha
    exact hall a ha.1 (by simpa using ha.2)

/-- C6: when every prior complaint sharing the submission's fingerprint is
in a resolved state (Resolved, Resolved (Pending Admin), or Closed), the
submission is never rejected with the duplicate-conflict outcome; the
match is instead converted into the stale-duplicate spam signal. -/
theorem C6_stale_duplicate (env : SubmitEnv)
    (userId category description photoUrl : String) (lat lon : ℚ) (hash : String)
    (hh : imageHashOf photoUrl = some hash)
    (hall : ∀ r ∈ env.history, r.imageHash = some hash → isResolvedStatus r.status = true)
    (hex : ∃ r ∈ env.history, r.imageHash = some hash) :
    (moderationOf env category description photoUrl).isSpam = true ∧
    ∀ d, (handleSubmitComplaint env userId category description photoUrl lat lon).outcome ≠
      .rejectedDuplicate d := by
  obtain ⟨r0, hr0, hres⟩ := mostRecentByHash_resolved env.history hash hall hex
  have hdup : duplicateOf env.history (trimStr photoUrl) = some r0 := by
    unfold duplicateOf
    rw [imageHashOf_trim, hh]
    exact hr0
  have hspam : (moderationOf env category description photoUrl).isSpam = true := by
    simp only [moderationOf, runImageModeration, hdup, hres]
    simp
  have hhard : hardDuplicate (moderationOf env category description photoUrl) = none := by
    simp only [hardDuplicate, moderationOf, runImageModeration, hdup, hres]
    simp
  refine ⟨hspam, fun d hcon => ?_⟩
  simp only [handleSubmitComplaint] at hcon
  by_cases hai : (moderationOf env category description photoUrl).isLikelyAiGenerated
  · rw [if_pos hai] at hcon
    exact SubmitOutcome.noConfusion hcon
  · rw [if_neg hai, hhard] at hcon
    by_cases hsp : (moderationOf env category description photoUrl).isSpam
    · rw [if_pos hsp] at hcon
      exact SubmitOutcome.noConfusion hcon
    · exact absurd hspam hsp

/-- A history with one resolved complaint fingerprint-matching `"photo1"`. -/
def historyC6 : List PriorRow :=
  [{ id := "CMP-9", status := "Closed", imageHash := some (sha256hex "photo1") }]

/-- A submission environment whose store holds only `historyC6`. -/
def envC6 : SubmitEnv :=
  { newComplaintId := "CMP-1", notifId := "NTF-1", gemini := none, history := historyC6,
    repeatedByUser := 0, geocode := none, officers := [], insertFails := false }

/-- Witness for C6 at a concrete resolved-duplicate environment. -/
theorem C6_stale_duplicate_witness :
    (imageHashOf "photo1" = some (sha256hex "photo1") ∧
      (∀ r ∈ envC6.history, r.imageHash = some (sha256hex "photo1") →
        isResolvedStatus r.status = true) ∧
      (∃ r ∈ envC6.history, r.imageHash = some (sha256hex "photo1"))) ∧
    (moderationOf envC6 "Water" "Major pipe burst flooding the street" "photo1").isSpam = true ∧
    ∀ d, (handleSubmitComplaint envC6 "USR-1" "Water" "Major pipe burst flooding the street"
      "photo1" 0 0).outcome ≠ .rejectedDuplicate d := by
  have h := C6_stale_duplicate envC6 "USR-1" "Water" "Major pipe burst flooding the street"
    "photo1" 0 0 (sha256hex "photo1") (by decide) (by decide) (by decide)
  exact ⟨⟨by decide, by decide, by decide⟩, h.1, h.2⟩

/-- A created outcome always carries exactly the accept-path complaint. -/
lemma outcome_created_eq (env : SubmitEnv) (userId category description photoUrl : String)
    (lat lon : ℚ) (c' : Complaint)
    (h : (handleSubmitComplaint env userId category description photoUrl lat lon).outcome =
      .created c') :
    c' = acceptedComplaint env userId category description photoUrl lat lon := by
  simp only [handleSubmitComplaint] at h
  split at h
  · simp at h
  · split at h
    · simp at h
    · split at h
      · simp at h
      · split at h
        · simp at h
        · simp at h
          exact h.symm

/-- C4: for an accepted submission, the persisted category equals the
classifier category exactly when the classification confidence reaches
0.6, and the citizen-submitted category (normalized) otherwise; the
persisted `classifiedCategory` column and the priority computation use
that same final category. -/
theorem C4_category_fallback (env : SubmitEnv)
    (userId category description photoUrl : String) (lat lon : ℚ) (c' : Complaint)
    (h : (handleSubmitComplaint env userId category description photoUrl lat lon).outcome =
      .created c') :
    (mkRat 6 10 ≤ (moderationOf env category description photoUrl).classificationConfidence →
      c'.category = (moderationOf env category description photoUrl).classifiedCategory) ∧
    ((moderationOf env category description photoUrl).classificationConfidence < mkRat 6 10 →
      c'.category = normalizeCategory category) ∧
    c'.classifiedCategory = c'.category ∧
    c'.priority = assignPriority c'.category.name description := by
  have hc := outcome_created_eq env userId category description photoUrl lat lon c' h
  subst hc
  refine ⟨?_, ?_, by simp only [acceptedComplaint], by simp only [acceptedComplaint]⟩
  · intro hge
    simp [acceptedComplaint, finalCategoryOf, hge]
  · intro hlt
    simp [acceptedComplaint, finalCategoryOf, not_le.mpr hlt]

/-- An environment with no officers, no history, no remote classifier, a
failing geocoder and a working store. -/
def envOk : SubmitEnv :=
  { newComplaintId := "CMP-1", notifId := "NTF-1", gemini := none, history := [],
    repeatedByUser := 0, geocode := none, officers := [], insertFails := false }

/-- Witness for C4 at a concrete accepted submission. -/
theorem C4_category_fallback_witness :
    (handleSubmitComplaint envOk "USR-1" "Water" "Major pipe burst flooding the street"
      "" 0 0).outcome =
      .created (acceptedComplaint envOk "USR-1" "Water" "Major pipe burst flooding the street"
        "" 0 0) ∧
    mkRat 6 10 ≤
      (moderationOf envOk "Water" "Major pipe burst flooding the street" "").classificationConfidence ∧
    (acceptedComplaint envOk "USR-1" "Water" "Major pipe burst flooding the street" "" 0 0).category =
      (moderationOf envOk "Water" "Major pipe burst flooding the street" "").classifiedCategory := by
  refine ⟨by decide, by decide, ?_⟩
  exact (C4_category_fallback envOk "USR-1" "Water" "Major pipe burst flooding the street"
    "" 0 0 _ (by decide)).1 (by decide)

/-- With the `"Unknown"` ward hint, the computed ward is always one of the
fixed non-empty ward strings. -/
lemma mapToAmravatiWard_ne_empty (lat lon : ℚ) :
    mapToAmravatiWard lat lon "Unknown" ≠ "" := by
  unfold mapToAmravatiWard
  split_ifs <;> decide

/-- C7: a failed reverse-geocode lookup is invisible to the submission
caller — the pipeline behaves exactly as if the geocoder had returned the
fixed fallback location — and every complaint created under a failed
lookup carries the fallback area, city, state and full address and a
non-null ward string. -/
theorem C7_geocode_fallback (env : SubmitEnv)
    (userId category description photoUrl : String) (lat lon : ℚ)
    (hgeo : env.geocode = none) :
    handleSubmitComplaint env userId category description photoUrl lat lon =
      handleSubmitComplaint { env with geocode := some fallbackLoc }
        userId category description photoUrl lat lon ∧
    ∀ c', (handleSubmitComplaint env userId category description photoUrl lat lon).outcome =
        .created c' →
      c'.area = "Unknown" ∧ c'.city = "Amravati" ∧ c'.state = "Maharashtra" ∧
      c'.fullAddress = "Unknown" ∧ c'.ward = mapToAmravatiWard lat lon "Unknown" ∧
      c'.ward ≠ "" := by
  constructor
  · simp only [handleSubmitComplaint, moderationOf, acceptedComplaint, assignedNotifs,
      emailsOf, officerOf, wardOf, divisionOf, locOf, hgeo]
  · intro c' hc
    have hce := outcome_created_eq env userId category description photoUrl lat lon c' hc
    subst hce
    refine ⟨?_, ?_, ?_, ?_, ?_, ?_⟩ <;>
      simp [acceptedComplaint, wardOf, locOf, hgeo, fallbackLoc, mapToAmravatiWard_ne_empty]

/-- Witness for C7 at a concrete submission with a failed geocoder. -/
theorem C7_geocode_fallback_witness :
    envOk.geocode = none ∧
    (acceptedComplaint envOk "USR-2" "Road" "Deep pothole near school" "" 0 0).area = "Unknown" ∧
    (acceptedComplaint envOk "USR-2" "Road" "Deep pothole near school" "" 0 0).ward ≠ "" := by
  have h := (C7_geocode_fallback envOk "USR-2" "Road" "Deep pothole near school" "" 0 0
    (by decide)).2 (acceptedComplaint envOk "USR-2" "Road" "Deep pothole near school" "" 0 0)
    (by decide)
  exact ⟨by decide, h.1, h.2.2.2.2.2⟩

/-- C10: when the remote vision classifier responds but its reported
category confidence is missing or not a finite number, the pipeline
substitutes exactly 0.6 (finite values are clamped into [0, 1]); since
0.6 meets the threshold, a submission accepted under such a degraded
response carries the remote classifier's normalized category and a
persisted confidence of exactly 0.6. -/
theorem C10_degraded_confidence :
    (∀ a ar s sr cat, (mkGeminiScan a ar s sr cat none).categoryConfidence = mkRat 6 10) ∧
    (∀ a ar s sr cat (c : ℚ),
      (mkGeminiScan a ar s sr cat (some c)).categoryConfidence = max 0 (min 1 c) ∧
      0 ≤ (mkGeminiScan a ar s sr cat (some c)).categoryConfidence ∧
      (mkGeminiScan a ar s sr cat (some c)).categoryConfidence ≤ 1) ∧
    (∀ (env : SubmitEnv) (userId category description photoUrl : String) (lat lon : ℚ)
      (a : Bool) (ar : String) (s : Bool) (sr cat : String) (p : ParsedDataUrl) (c' : Complaint),
      env.gemini = some (mkGeminiScan a ar s sr cat none) →
      parseImageDataUrl (trimStr photoUrl) = some p →
      (handleSubmitComplaint env userId category description photoUrl lat lon).outcome =
        .created c' →
      c'.category = normalizeCategory cat ∧ c'.classificationConfidence = mkRat 6 10) := by
  refine ⟨fun a ar s sr cat => rfl, fun a ar s sr cat c => ⟨rfl, le_max_left 0 _,
    max_le zero_le_one (min_le_left 1 c)⟩, ?_⟩
  intro env userId category description photoUrl lat lon a ar s sr cat p c' hg hp hout
  have hmod : moderationOf env category description photoUrl =
      runImageModeration env.gemini env.history env.repeatedByUser photoUrl description category :=
    runImageModeration_photo_trim env.gemini env.history env.repeatedByUser photoUrl
      description category
  have hm1 : (moderationOf env category description photoUrl).classificationConfidence =
      mkRat 6 10 := by
    rw [hmod]
    simp [runImageModeration, hp, hg, mkGeminiScan]
  have hm2 : (moderationOf env category description photoUrl).classifiedCategory =
      normalizeCategory cat := by
    rw [hmod]
    simp [runImageModeration, hp, hg, mkGeminiScan]
  have hce := outcome_created_eq env userId category description photoUrl lat lon c' hout
  subst hce
  constructor
  · simp [acceptedComplaint, finalCategoryOf, hm1, hm2]
  · simp [acceptedComplaint, hm1]

/-- An environment whose remote classifier reports category Streetlight
with a missing confidence value. -/
def envC10 : SubmitEnv :=
  { newComplaintId := "CMP-1", notifId := "NTF-1",
    gemini := some (mkGeminiScan false "" false "" "Streetlight" none), history := [],
    repeatedByUser := 0, geocode := none, officers := [], insertFails := false }

/-- Witness for C10 at a concrete degraded remote response. -/
theorem C10_degraded_confidence_witness :
    envC10.gemini = some (mkGeminiScan false "" false "" "Streetlight" none) ∧
    parseImageDataUrl (trimStr "data:image/png;base64,QQ==") = some ⟨"image/png", "QQ=="⟩ ∧
    (handleSubmitComplaint envC10 "USR-1" "Garbage" "Nice photo of the area"
      "data:image/png;base64,QQ==" 0 0).outcome =
      .created (acceptedComplaint envC10 "USR-1" "Garbage" "Nice photo of the area"
        "data:image/png;base64,QQ==" 0 0) ∧
    (acceptedComplaint envC10 "USR-1" "Garbage" "Nice photo of the area"
      "data:image/png;base64,QQ==" 0 0).category = normalizeCategory "Streetlight" := by
  refine ⟨rfl, by decide, by decide, ?_⟩
  exact (C10_degraded_confidence.2.2 envC10 "USR-1" "Garbage" "Nice photo of the area"
    "data:image/png;base64,QQ==" 0 0 false "" false "" "Streetlight" ⟨"image/png", "QQ=="⟩ _
    rfl (by decide) (by decide)).1

/-- C1: the rejection policy of moderation is evaluated in a fixed order —
AI-generated flag first (authenticity rejection regardless of all other
signals), then an open-state duplicate match (duplicate-conflict
rejection), then the spam flag (content-quality rejection); otherwise the
submission is accepted and processing continues to the accept path. -/
theorem C1_rejection_order (env : SubmitEnv)
    (userId category description photoUrl : String) (lat lon : ℚ) :
    ((moderationOf env category description photoUrl).isLikelyAiGenerated = true →
      (handleSubmitComplaint env userId category description photoUrl lat lon).outcome =
        .rejectedAiGenerated
          (if (moderationOf env category description photoUrl).aiGeneratedReason == "" then
            "Image authenticity check failed."
          else (moderationOf env category description photoUrl).aiGeneratedReason)) ∧
    ((moderationOf env category description photoUrl).isLikelyAiGenerated = false →
      ∀ d, hardDuplicate (moderationOf env category description photoUrl) = some d →
        (handleSubmitComplaint env userId category description photoUrl lat lon).outcome =
          .rejectedDuplicate d) ∧
    ((moderationOf env category description photoUrl).isLikelyAiGenerated = false →
      hardDuplicate (moderationOf env category description photoUrl) = none →
      (moderationOf env category description photoUrl).isSpam = true →
      (handleSubmitComplaint env userId category description photoUrl lat lon).outcome =
        .rejectedSpam
          (if (moderationOf env category description photoUrl).spamReason == "" then
            "Spam signal detected."
          else (moderationOf env category description photoUrl).spamReason)) ∧
    ((moderationOf env category description photoUrl).isLikelyAiGenerated = false →
      hardDuplicate (moderationOf env category description photoUrl) = none →
      (moderationOf env category description photoUrl).isSpam = false →
      (handleSubmitComplaint env userId category description photoUrl lat lon).outcome =
        (if env.insertFails then .insertFailed
         else .created (acceptedComplaint env userId category description photoUrl lat lon))) := by
  refine ⟨?_, ?_, ?_, ?_⟩
  · intro h1
    simp only [handleSubmitComplaint]
    rw [if_pos h1]
  · intro h1 d h2
    simp only [handleSubmitComplaint]
    rw [if_neg (by simp [h1]), h2]
  · intro h1 h2 h3
    simp only [handleSubmitComplaint]
    rw [if_neg (by simp [h1]), h2]
    simp only [if_pos h3]
  · intro h1 h2 h3
    simp only [handleSubmitComplaint]
    rw [if_neg (by simp [h1]), h2]
    simp only [if_neg (by simp [h3] : ¬(moderationOf env category description photoUrl).isSpam = true)]
    cases hf : env.insertFails <;> simp [hf]

/-- An environment whose remote classifier flags the image as
AI-generated. -/
def envC1 : SubmitEnv :=
  { newComplaintId := "CMP-1", notifId := "NTF-1",
    gemini := some (mkGeminiScan true "Synthetic artifacts detected" false "" "Water"
      (some (mkRat 9 10))),
    history := [], repeatedByUser := 0, geocode := none, officers := [], insertFails := false }

/-- Witness for C1: with the AI-generated flag set, the submission is
rejected with the authenticity outcome even though no other signal fired. -/
theorem C1_rejection_order_witness :
    (moderationOf envC1 "Water" "Major pipe burst flooding the street"
      "data:image/png;base64,QQ==").isLikelyAiGenerated = true ∧
    (handleSubmitComplaint envC1 "USR-1" "Water" "Major pipe burst flooding the street"
      "data:image/png;base64,QQ==" 0 0).outcome =
      .rejectedAiGenerated "Synthetic artifacts detected" := by
  have h := (C1_rejection_order envC1 "USR-1" "Water" "Major pipe burst flooding the street"
    "data:image/png;base64,QQ==" 0 0).1 (by decide)
  exact ⟨by decide, h.trans (by decide)⟩

/-- Every notification inserted by the submission route references the new
complaint id and has the ASSIGNED type. -/
lemma assignedNotifs_fields (env : SubmitEnv)
    (category description photoUrl : String) (lat lon : ℚ) :
    ∀ n ∈ assignedNotifs env category description photoUrl lat lon,
      n.complaintId = env.newComplaintId ∧ n.ntype = "ASSIGNED" := by
  intro n hn
  simp only [assignedNotifs] at hn
  cases hof : officerOf env lat lon with
  | some o =>
    rw [hof] at hn
    simp at hn
    simp [hn]
  | none =>
    rw [hof] at hn
    simp at hn

/-- The officer directory with the seeded ward officer `OFF-001`. -/
def officersC2 : List Officer :=
  [{ id := "OFF-001", name := "Rohit Patil", email := "adhalhari2@gmail.com",
     department := "Sanitation", division := "Zone-1",
     ward := "Amravati Ward – Pushpak Colony Zone" }]

/-- An environment with an assignable officer whose complaint insert
fails. -/
def envC2 : SubmitEnv :=
  { newComplaintId := "CMP-7", notifId := "NTF-7", gemini := none, history := [],
    repeatedByUser := 0, geocode := none, officers := officersC2, insertFails := true }

/-- C2 counterexample: a passing submission inside the Pushpak Colony zone
with an assignable officer whose complaint insert fails — the submitter
gets the generic failure and no complaint row exists, yet an ASSIGNED
notification referencing the failed complaint id was persisted, because
`notifyAdminAssignment` runs before the insert. -/
theorem C2_counterexample :
    (handleSubmitComplaint envC2 "USR-1" "Water" "Major pipe burst flooding the street" ""
      (mkRat 2088 100) (mkRat 7774 100)).outcome = .insertFailed ∧
    (handleSubmitComplaint envC2 "USR-1" "Water" "Major pipe burst flooding the street" ""
      (mkRat 2088 100) (mkRat 7774 100)).complaintsInserted = [] ∧
    ∃ n ∈ (handleSubmitComplaint envC2 "USR-1" "Water" "Major pipe burst flooding the street" ""
      (mkRat 2088 100) (mkRat 7774 100)).notifications,
      n.complaintId = "CMP-7" ∧ n.ntype = "ASSIGNED" := by
  refine ⟨by decide, by decide, by decide⟩

/-- C2 amended: when the complaint-row insert fails, the submitter
receives a generic failure outcome (never a created complaint) and no
complaint row is persisted; however, when an officer was auto-assigned,
the ASSIGNED notification referencing the failed complaint id has already
been persisted and is not rolled back — every notification left behind
references the failed id with the ASSIGNED type. -/
theorem C2_insert_failure (env : SubmitEnv)
    (userId category description photoUrl : String) (lat lon : ℚ)
    (hfail : env.insertFails = true) :
    (handleSubmitComplaint env userId category description photoUrl lat lon).complaintsInserted =
      [] ∧
    (∀ c, (handleSubmitComplaint env userId category description photoUrl lat lon).outcome ≠
      .created c) ∧
    (∀ n ∈ (handleSubmitComplaint env userId category description photoUrl lat lon).notifications,
      n.complaintId = env.newComplaintId ∧ n.ntype = "ASSIGNED") := by
  by_cases h1 : (moderationOf env category description photoUrl).isLikelyAiGenerated = true
  · simp [handleSubmitComplaint, h1]
  · cases h2 : hardDuplicate (moderationOf env category description photoUrl) with
    | some d =>
      simp only [handleSubmitComplaint]
      rw [if_neg h1, h2]
      simp
    | none =>
      by_cases h3 : (moderationOf env category description photoUrl).isSpam = true
      · simp only [handleSubmitComplaint]
        rw [if_neg h1, h2]
        simp [h3]
      · simp only [handleSubmitComplaint]
        rw [if_neg h1, h2]
        simp only [if_neg h3, if_pos hfail]
        refine ⟨by simp, by simp, ?_⟩
        exact assignedNotifs_fields env category description photoUrl lat lon

/-- Witness for C2's amended theorem at the concrete failing environment. -/
theorem C2_insert_failure_witness :
    envC2.insertFails = true ∧
    (handleSubmitComplaint envC2 "USR-1" "Water" "Major pipe burst flooding the street" ""
      (mkRat 2088 100) (mkRat 7774 100)).complaintsInserted = [] ∧
    ∀ c, (handleSubmitComplaint envC2 "USR-1" "Water" "Major pipe burst flooding the street" ""
      (mkRat 2088 100) (mkRat 7774 100)).outcome ≠ .created c := by
  have h := C2_insert_failure envC2 "USR-1" "Water" "Major pipe burst flooding the street" ""
    (mkRat 2088 100) (mkRat 7774 100) (by decide)
  exact ⟨by decide, h.1, h.2.1⟩
